import Mathlib

/-!
# Verification of the eva-submission ingestion orchestrator

A shallow embedding of the staged ingestion orchestrator of the
`eva-submission` repository (`eva_submission/eload_ingestion.py`,
`eva_submission/eload_submission.py`, `bin/add_ext_reference.py`).

The checkpoint document (`EloadConfig`) is modelled as an association list
from hierarchical paths to values; external collaborators (the EVAPRO
metadata store, the mongo variant warehouse, the external batch processes)
are modelled by an environment record carrying each collaborator's answer,
and every interaction with a collaborator is recorded in a call trace so
that statements such as "no external process is invoked" can be expressed.
Python exceptions are modelled by an error type threaded through the
orchestration functions.
-/

set_option autoImplicit false

namespace EvaSubmission

/-- A hierarchical key of the checkpoint document, e.g.
`["brokering", "ena", "PROJECT"]`. -/
abbrev CfgPath := List String

/-- Values stored in the checkpoint document (the submission config YAML). -/
inductive Val where
  | vstr : String → Val
  | vnat : Nat → Val
  | vbool : Bool → Val
  /-- Python `None` stored as a value (e.g. `instance_id=None`). -/
  | vnone : Val
  /-- The brokering `vcf_files` mapping: vcf path to index path. -/
  | vdict : List (String × String) → Val
deriving DecidableEq, Repr

/-- The checkpoint document: an association list from paths to values.
`EloadConfig.set` in the source overwrites the full nested path. -/
abbrev Cfg := List (CfgPath × Val)

/-- `EloadConfig.query`: returns the stored value, or `none` for a missing
path (the source's `query` never raises on a missing path). -/
def Cfg.query (c : Cfg) (p : CfgPath) : Option Val :=
  match c.find? (fun kv => kv.1 = p) with
  | some kv => some kv.2
  | none => none

/-- `EloadConfig.set`: write-through update of one hierarchical key. -/
def Cfg.set (c : Cfg) (p : CfgPath) (v : Val) : Cfg :=
  (p, v) :: c.filter (fun kv => ¬ kv.1 = p)

/-- One interaction with an external collaborator during `ingest`.
The first three are invocations of external batch processes
(`run_command_with_output`); the last four are store lookups/writes. -/
inductive Call where
  /-- The perl `load_from_ena` process (metadata_load stage). -/
  | enaLoadProcess
  /-- The nextflow accessioning pipeline. -/
  | accessionPipeline
  /-- The nextflow variant load pipeline. -/
  | variantLoadPipeline
  /-- `get_variant_warehouse_db_name_from_assembly_and_taxonomy` against EVAPRO. -/
  | evaproResolveDbName
  /-- `insert_new_assembly_and_taxonomy` into EVAPRO. -/
  | evaproInsertAssembly
  /-- `pymongo list_database_names` against the variant warehouse. -/
  | mongoListDbNames
  /-- The `evapro.project` title query in `get_study_name`. -/
  | evaproStudyNameQuery
deriving DecidableEq, Repr

/-- Whether a call invokes an external batch process (as opposed to a
metadata/variant store lookup). -/
def Call.isExternalProcess : Call → Bool
  | .enaLoadProcess => true
  | .accessionPipeline => true
  | .variantLoadPipeline => true
  | _ => false

/-- Python exceptions raised by the orchestrator. -/
inductive PyError where
  | valueError : String → PyError
  | attributeError : String → PyError
  /-- `subprocess.CalledProcessError` with the process return code. -/
  | calledProcessError : Nat → PyError
  /-- `FileExistsError` from `os.makedirs` without `exist_ok`. -/
  | fileExistsError : String → PyError
deriving DecidableEq, Repr

/-- The answers of the external collaborators for one orchestration run. -/
structure Env where
  /-- Result of the EVAPRO db-name lookup for the submission's
  (assembly accession, taxonomy id); `none` when no mapping exists. -/
  resolveDbName : Option String
  /-- The variant warehouse's catalog of database names
  (`list_database_names`). -/
  mongoDbNames : List String
  /-- Exit code of the perl ENA metadata load process. -/
  enaLoadExit : Nat
  /-- Exit code of the nextflow accessioning pipeline. -/
  accessionExit : Nat
  /-- Exit code of the nextflow variant load pipeline. -/
  variantLoadExit : Nat
  /-- Rows returned by the `evapro.project` title query. -/
  projectTitles : List String
deriving DecidableEq, Repr

/-- Outcome of an orchestration step: updated checkpoint, calls made,
and the raised exception if any. -/
structure StepResult where
  cfg : Cfg
  calls : List Call
  err : Option PyError
deriving DecidableEq, Repr

/-- `check_brokering_done`: raises `ValueError` when the brokered VCF file
list or the project accession is missing from the checkpoint.  (The project
accession is read from `brokering.ena.PROJECT` at construction time.) -/
def checkBrokeringDone (c : Cfg) : Option PyError :=
  if c.query ["brokering", "vcf_files"] = none then
    some (.valueError "No brokered VCF files found.")
  else if c.query ["brokering", "ena", "PROJECT"] = none then
    some (.valueError "No project accession in submission config.")
  else
    none

/-- `get_db_name`: queries EVAPRO for the variant warehouse database name;
raises `ValueError` when the lookup returns nothing (`if not db_name`). -/
def getDbName (env : Env) : List Call × Except PyError String :=
  ([.evaproResolveDbName],
    match env.resolveDbName with
    | some s =>
        if s = "" then .error (.valueError "No database found")
        else .ok s
    | none => .error (.valueError "No database found"))

/-- `check_variant_db`: resolves the database name (via EVAPRO when the
argument is falsy, otherwise registering the provided name), records it in
the checkpoint, then checks the mongo catalog; on a missing database it
records `exists = false` and raises `ValueError`. -/
def checkVariantDb (env : Env) (c : Cfg) (dbNameArg : Option String) :
    StepResult :=
  let resolved : List Call × Except PyError String :=
    match dbNameArg with
    | none => getDbName env
    | some s =>
        if s = "" then getDbName env
        else ([.evaproInsertAssembly], .ok s)
  match resolved with
  | (calls, .error e) => ⟨c, calls, some e⟩
  | (calls, .ok dbName) =>
    let c1 := c.set ["ingestion", "database", "db_name"] (.vstr dbName)
    let calls1 := calls ++ [.mongoListDbNames]
    if dbName ∈ env.mongoDbNames then
      ⟨c1.set ["ingestion", "database", "exists"] (.vbool true), calls1, none⟩
    else
      ⟨c1.set ["ingestion", "database", "exists"] (.vbool false), calls1,
        some (.valueError ("No database named " ++ dbName ++ " found."))⟩

/-- `load_from_ena`: runs the perl ENA metadata load process, records
`ingestion.ena_load = success` on exit code zero, `failure` otherwise
(re-raising the `CalledProcessError`). -/
def loadFromEna (env : Env) (c : Cfg) : StepResult :=
  if env.enaLoadExit = 0 then
    ⟨c.set ["ingestion", "ena_load"] (.vstr "success"), [.enaLoadProcess], none⟩
  else
    ⟨c.set ["ingestion", "ena_load"] (.vstr "failure"), [.enaLoadProcess],
      some (.calledProcessError env.enaLoadExit)⟩

/-- `get_study_name`: queries the `evapro.project` title; raises
`ValueError` unless exactly one row is returned. -/
def getStudyName (env : Env) : List Call × Except PyError String :=
  ([.evaproStudyNameQuery],
    match env.projectTitles with
    | [t] => .ok t
    | _ => .error (.valueError "More than one project found in metadata DB."))

/-- `run_accession_workflow`: writes the job properties artifact (a file on
disk, not the checkpoint) and invokes the nextflow accessioning pipeline;
on nonzero exit the `CalledProcessError` is re-raised.  No stage outcome is
written to the checkpoint in either case. -/
def runAccessionWorkflow (env : Env) (c : Cfg) : StepResult :=
  ⟨c, [.accessionPipeline],
    if env.accessionExit = 0 then none
    else some (.calledProcessError env.accessionExit)⟩

/-- `str.lower`, as used on the aggregation argument and the scientific
name: lower-case every character. -/
def strToLower (s : String) : String := ⟨s.data.map Char.toLower⟩

/-- Python `str.split()`: split on runs of whitespace, dropping empty
words.  `acc` holds the current word's characters in reverse. -/
def pyWordsAux : List Char → List Char → List String
  | [], acc => if acc = [] then [] else [⟨acc.reverse⟩]
  | ch :: cs, acc =>
    if ch.isWhitespace then
      if acc = [] then pyWordsAux cs []
      else ⟨acc.reverse⟩ :: pyWordsAux cs []
    else pyWordsAux cs (ch :: acc)

/-- Python `str.split()` on a whole string. -/
def pyWords (s : String) : List String := pyWordsAux s.data []

/-- `get_vep_species`: lower-cases the recorded scientific name and joins
its words with underscores.  When `submission.scientific_name` is absent
(or not a string) the `.lower()` call raises `AttributeError`. -/
def getVepSpecies (c : Cfg) : Except PyError String :=
  match c.query ["submission", "scientific_name"] with
  | some (.vstr s) => .ok (String.intercalate "_" (pyWords (strToLower s)))
  | _ => .error (.attributeError "NoneType object has no attribute lower")

/-- `run_variant_load_workflow`: builds the job properties — evaluating
`get_study_name()` and then `get_vep_species()`, either of which can
raise before the pipeline is reached — writes the artifact and invokes
the nextflow variant load pipeline; on nonzero exit the
`CalledProcessError` is re-raised.  No stage outcome is written to the
checkpoint in any case. -/
def runVariantLoadWorkflow (env : Env) (c : Cfg) : StepResult :=
  match getStudyName env with
  | (calls, .error e) => ⟨c, calls, some e⟩
  | (calls, .ok _) =>
    match getVepSpecies c with
    | .error e => ⟨c, calls, some e⟩
    | .ok _ =>
      ⟨c, calls ++ [.variantLoadPipeline],
        if env.variantLoadExit = 0 then none
        else some (.calledProcessError env.variantLoadExit)⟩

/-- The fixed task list (`EloadIngestion.all_tasks`). -/
def allTasks : List String := ["metadata_load", "accession", "variant_load"]

/-- Lift an optional Python string argument to a stored value
(`None` is stored as `None`). -/
def optVal : Option String → Val
  | some s => .vstr s
  | none => .vnone

/-- `EloadIngestion.ingest`: the orchestration entry point, translated
clause by clause from the source.  It records the ingestion date, checks
brokering, checks the variant database (unconditionally, whatever the task
set), then runs the requested stages in order, aborting at the first
exception.  `tasks = []` models the Python `tasks=None` default
(`if not tasks: tasks = self.all_tasks`). -/
def ingest (env : Env) (c0 : Cfg) (now : String)
    (aggregation instanceId vepVersion vepCacheVersion dbName : Option String)
    (tasks : List String) : StepResult :=
  let c := c0.set ["ingestion", "ingestion_date"] (.vstr now)
  match checkBrokeringDone c with
  | some e => ⟨c, [], some e⟩
  | none =>
  match checkVariantDb env c dbName with
  | ⟨c, calls, some e⟩ => ⟨c, calls, some e⟩
  | ⟨c, calls, none⟩ =>
  let tasks := if tasks = [] then allTasks else tasks
  let step1 : StepResult :=
    if "metadata_load" ∈ tasks then loadFromEna env c else ⟨c, [], none⟩
  match step1 with
  | ⟨c1, calls1, some e⟩ => ⟨c1, calls ++ calls1, some e⟩
  | ⟨c1, calls1, none⟩ =>
  let doAccession := "accession" ∈ tasks
  let doVariantLoad := "variant_load" ∈ tasks
  if doAccession ∨ doVariantLoad then
    match aggregation with
    | none =>
        ⟨c1, calls ++ calls1,
          some (.attributeError "NoneType object has no attribute lower")⟩
    | some agg =>
      let c2 := c1.set ["ingestion", "aggregation"] (.vstr (strToLower agg))
      let step2 : StepResult :=
        if doAccession then
          runAccessionWorkflow env
            (c2.set ["ingestion", "accession", "instance_id"] (optVal instanceId))
        else ⟨c2, [], none⟩
      match step2 with
      | ⟨c3, calls2, some e⟩ => ⟨c3, calls ++ calls1 ++ calls2, some e⟩
      | ⟨c3, calls2, none⟩ =>
        if doVariantLoad then
          let c4 :=
            (c3.set ["ingestion", "variant_load", "vep", "version"]
                (optVal vepVersion)).set
              ["ingestion", "variant_load", "vep", "cache_version"]
              (optVal vepCacheVersion)
          match runVariantLoadWorkflow env c4 with
          | ⟨c5, calls3, e⟩ => ⟨c5, calls ++ calls1 ++ calls2 ++ calls3, e⟩
        else ⟨c3, calls ++ calls1 ++ calls2, none⟩
  else ⟨c1, calls ++ calls1, none⟩

/-! ## Directory layout (`Eload.__init__`, `setup_project_dir`) -/

/-- The eload directory layout (`directory_structure` in
`eload_submission.py`). -/
def directoryStructure : List (String × String) :=
  [("vcf", "10_submitted/vcf_files"),
   ("metadata", "10_submitted/metadata_file"),
   ("vcf_check", "13_validation/vcf_format"),
   ("assembly_check", "13_validation/assembly_check"),
   ("sample_check", "13_validation/sample_concordance"),
   ("biosamles", "18_brokering/biosamples"),
   ("ena", "18_brokering/ena"),
   ("scratch", "20_scratch")]

/-- The project directory layout (`project_dirs` in `eload_ingestion.py`). -/
def projectDirs : List (String × String) :=
  [("logs", "00_logs"),
   ("valid", "30_eva_valid"),
   ("transformed", "40_transformed"),
   ("stats", "50_stats"),
   ("annotation", "51_annotation"),
   ("accessions", "52_accessions"),
   ("public", "60_eva_public"),
   ("external", "70_external_submissions"),
   ("deprecated", "80_deprecated")]

/-- The filesystem, as the set of existing directory paths. -/
abbrev Fs := List String

/-- `os.makedirs(path, exist_ok=existOk)`: creates the directory; an
already-existing directory raises `FileExistsError` only when `exist_ok`
is false. -/
def makedirs (fs : Fs) (path : String) (existOk : Bool) :
    Except PyError Fs :=
  if path ∈ fs then
    if existOk then .ok fs else .error (.fileExistsError path)
  else .ok (path :: fs)

/-- Create every directory of a layout under `root`, in order, each with
`exist_ok=True` (the loop bodies of `Eload.__init__` and
`setup_project_dir`). -/
def ensureDirsList (fs : Fs) (root : String) : List String → Except PyError Fs
  | [] => .ok fs
  | d :: ds =>
    match makedirs fs (root ++ "/" ++ d) true with
    | .error e => .error e
    | .ok fs1 => ensureDirsList fs1 root ds

/-- Establish a directory layout: create the root, then every layout
directory under it, all with `exist_ok=True`. -/
def ensureLayout (fs : Fs) (root : String) (layout : List (String × String)) :
    Except PyError Fs :=
  match makedirs fs root true with
  | .error e => .error e
  | .ok fs1 => ensureDirsList fs1 root (layout.map Prod.snd)

/-- The directory creation performed by `Eload.__init__` for one eload
directory root. -/
def setupEloadDirs (fs : Fs) (root : String) : Except PyError Fs :=
  ensureLayout fs root directoryStructure

/-- The directory creation performed by
`EloadIngestion.setup_project_dir` for one project directory root. -/
def setupProjectDirTree (fs : Fs) (root : String) : Except PyError Fs :=
  ensureLayout fs root projectDirs

/-! ## FTP copy and metadata attribute detection (`eload_submission.py`) -/

/-- A log event emitted through `AppLogger` (log only; never raises). -/
inductive LogEvent where
  | warning : String → LogEvent
  | logError : String → LogEvent
deriving DecidableEq, Repr

/-- The FTP deposit box contents as seen by `copy_from_ftp`.
`mostRecent` is the box's `most_recent_metadata` property (the
`FtpDepositBox` collaborator is outside this core). -/
structure FtpBox where
  vcfFiles : List String
  metadataFiles : List String
  otherFiles : List String
  mostRecent : String
deriving DecidableEq, Repr

/-- `Eload.copy_from_ftp`, restricted to its metadata handling: when the
box holds a number of metadata files different from one, it logs a warning
and uses the most recent one; the copied metadata file is returned together
with the log events.  It never raises for a surplus of metadata files. -/
def copyFromFtp (box : FtpBox) : String × List LogEvent :=
  let logs1 :=
    if box.metadataFiles.length ≠ 1 then
      [LogEvent.warning
        ("Found " ++ toString box.metadataFiles.length ++
          " metadata file in the FTP. Will use the most recent one")]
    else []
  let logs2 := box.otherFiles.map
    (fun f => LogEvent.warning ("File " ++ f ++ " will not be treated"))
  (box.mostRecent, logs1 ++ logs2)

/-- Insert the elements of `xs` into the set `s` (Python `set.update`),
modelled as an insertion-ordered duplicate-free list. -/
def setUpdate (s : List String) (xs : List String) : List String :=
  xs.foldl (fun acc x => if x ∈ acc then acc else acc ++ [x]) s

/-- The inputs of `detect_metadata_attibutes`: the `Reference` text of each
analysis row of the spreadsheet, the NCBI assembly-accession resolver, and
the project's taxonomy id. -/
structure MetadataEnv where
  analyses : List String
  resolveAssembly : String → List String
  taxId : Option Nat

/-- `Eload.add_to_submission_config`. -/
def addToSubmissionConfig (c : Cfg) (key : String) (v : Val) : Cfg :=
  c.set ["submission", key] v

/-- The `reference_gca` set gathered by `detect_metadata_attibutes`: the
candidate assembly accessions over all analyses. -/
def referenceGcaSet (menv : MetadataEnv) : List String :=
  menv.analyses.foldl (fun acc r => setUpdate acc (menv.resolveAssembly r)) []

/-- `Eload.detect_metadata_attibutes`: gathers the set of candidate
assembly accessions over all analyses; with more than one candidate it
logs an error and records nothing, with exactly one it records it, with
none it logs an error; the taxonomy id is always recorded.  It never
raises. -/
def detectMetadataAttributes (menv : MetadataEnv) (c : Cfg) :
    Cfg × List LogEvent :=
  let referenceGca := referenceGcaSet menv
  let (c1, logs) :=
    if referenceGca.length > 1 then
      (c, [LogEvent.logError
        ("Multiple assemblies per project not currently supported: " ++
          String.intercalate ", " referenceGca)])
    else
      match referenceGca with
      | g :: _ => (addToSubmissionConfig c "assembly_accession" (.vstr g), [])
      | [] => (c, [LogEvent.logError "No genbank accession could be found"])
  let c2 := addToSubmissionConfig c1 "taxonomy_id"
    (match menv.taxId with | some n => .vnat n | none => .vnone)
  (c2, logs)

/-! ## Retry policy of the curie-existence check (`add_ext_reference.py`) -/

/-- The parameters of the `retry` decorator, with the fractional backoff
factor kept as a numerator/denominator pair (`1.2 = 6/5`). -/
structure RetryPolicy where
  tries : Nat
  delay : Nat
  backoffNum : Nat
  backoffDen : Nat
  jitterLo : Nat
  jitterHi : Nat
deriving DecidableEq, Repr

/-- The decorator of `_curie_exist`:
`@retry(tries=3, delay=2, backoff=1.2, jitter=(1, 3))`. -/
def curieRetryPolicy : RetryPolicy :=
  { tries := 3, delay := 2, backoffNum := 6, backoffDen := 5,
    jitterLo := 1, jitterHi := 3 }

/-- The `retry` decorator's control flow: attempt the call; on an
exception retry, up to `tries` attempts in total; the last attempt's
exception propagates.  `f i` is the outcome of attempt number `i`. -/
def retryCall {ε α : Type} : Nat → (Nat → Except ε α) → Nat → Except ε α
  | 0, f, i => f i
  | 1, f, i => f i
  | n + 2, f, i =>
    match f i with
    | .ok a => .ok a
    | .error _ => retryCall (n + 1) f (i + 1)

/-- The number of attempts `retryCall` makes. -/
def attemptsUsed {ε α : Type} : Nat → (Nat → Except ε α) → Nat → Nat
  | 0, _, _ => 1
  | 1, _, _ => 1
  | n + 2, f, i =>
    match f i with
    | .ok _ => 1
    | .error _ => 1 + attemptsUsed (n + 1) f (i + 1)

/-- The body of one `_curie_exist` attempt returns the `ok` flag of each
resolved resource's HEAD probe (an exception while fetching is an `error`);
the function returns `True` at the first `ok` resource, `False` when none
is `ok`. -/
def curieExistBody (resources : List Bool) : Bool := resources.any id

/-- `_curie_exist` under its retry decorator: `f i` is attempt `i`'s
fetched resource flags. -/
def curieExist (f : Nat → Except PyError (List Bool)) :
    Except PyError Bool :=
  (retryCall curieRetryPolicy.tries f 0).map curieExistBody

/-- `EvaproExtReference._get_dbxref_id` (and the other store lookups of the
script): a single, undecorated query against the metadata store — one
attempt, any exception surfaces immediately. -/
def getDbxrefId (f : Nat → Except PyError (Option Nat)) :
    Except PyError (Option Nat) :=
  retryCall 1 f 0

/-! ## Concrete fixtures used by counterexamples and witnesses -/

/-- A checkpoint with the brokering facts present. -/
def cBrok : Cfg :=
  [(["brokering", "vcf_files"], .vdict [("a.vcf.gz", "a.csi")]),
   (["brokering", "ena", "PROJECT"], .vstr "PRJEB1")]

/-- A fully cooperative environment: the database resolves and exists,
every external process exits zero. -/
def envGood : Env :=
  { resolveDbName := some "eva_db", mongoDbNames := ["eva_db"],
    enaLoadExit := 0, accessionExit := 0, variantLoadExit := 0,
    projectTitles := ["Study"] }

/-- An environment where EVAPRO has no database mapping for the
submission. -/
def envNoDb : Env :=
  { envGood with resolveDbName := none }

/-- An environment where the ENA metadata load process exits with code 1. -/
def envEnaFail : Env := { envGood with enaLoadExit := 1 }

/-- An environment where the accessioning pipeline exits with code 1. -/
def envAccFail : Env := { envGood with accessionExit := 1 }

/-- A checkpoint that already records a resolved database identity. -/
def cRec : Cfg :=
  cBrok ++ [(["ingestion", "database", "db_name"], .vstr "recorded_db")]

/-- An environment whose metadata store resolves to a different database
name than the one recorded in `cRec`. -/
def envOther : Env :=
  { envGood with resolveDbName := some "other_db", mongoDbNames := ["other_db"] }

/-- A variant warehouse catalog holding only a lower-case database name. -/
def envCat : Env := { envGood with mongoDbNames := ["eva_db"] }

/-- An environment where the variant load pipeline exits with code 1. -/
def envVlFail : Env := { envGood with variantLoadExit := 1 }

/-- A checkpoint with the brokering facts and a recorded scientific name
(so the variant-load execution context can be built). -/
def cSci : Cfg :=
  (["submission", "scientific_name"], .vstr "Homo sapiens") :: cBrok

/-- A curie-resolution attempt function that fails on every attempt. -/
def allFail : Nat → Except PyError (List Bool) :=
  fun _ => .error (.valueError "network unreachable")

/-- A dbxref store lookup that answers on the single attempt. -/
def gOne : Nat → Except PyError (Option Nat) := fun _ => .ok (some 7)

/-- A spreadsheet whose two analyses reference two different assemblies. -/
def menvTwo : MetadataEnv :=
  { analyses := ["analysis 1", "analysis 2"],
    resolveAssembly := fun r => if r = "analysis 1" then ["GCA_1"] else ["GCA_2"],
    taxId := some 9606 }

/-- An FTP deposit box holding two metadata spreadsheets. -/
def boxTwo : FtpBox :=
  { vcfFiles := ["a.vcf.gz"], metadataFiles := ["m1.xlsx", "m2.xlsx"],
    otherFiles := [], mostRecent := "m2.xlsx" }

/-! ## Checkpoint store lemmas -/

theorem Cfg.query_set_self (c : Cfg) (p : CfgPath) (v : Val) :
    (c.set p v).query p = some v := by
  simp [Cfg.query, Cfg.set]

theorem Cfg.query_set_of_ne (c : Cfg) (p q : CfgPath) (v : Val) (h : ¬ p = q) :
    (c.set p v).query q = c.query q := by
  have hpred : (fun a : CfgPath × Val => !decide (a.1 = p) && decide (a.1 = q))
      = fun a : CfgPath × Val => decide (a.1 = q) := by
    funext a
    by_cases ha : a.1 = q
    · simp [ha]
      exact fun hqp => h hqp.symm
    · simp [ha]
  simp [Cfg.query, Cfg.set, List.find?, h, hpred]

/-! ## Helper lemmas about the orchestration components -/

/-- `check_variant_db` only talks to the metadata and variant stores; it
never invokes an external batch process. -/
theorem checkVariantDb_no_process (env : Env) (c : Cfg) (d : Option String) :
    ((checkVariantDb env c d).calls.filter Call.isExternalProcess) = [] := by
  rcases d with _ | s
  · rcases hh : env.resolveDbName with _ | r
    · simp [checkVariantDb, getDbName, hh, Call.isExternalProcess]
    · by_cases hr : r = ""
      · simp [checkVariantDb, getDbName, hh, hr, Call.isExternalProcess]
      · by_cases hm : r ∈ env.mongoDbNames <;>
          simp [checkVariantDb, getDbName, hh, hr, hm, Call.isExternalProcess]
  · by_cases hs : s = ""
    · rcases hh : env.resolveDbName with _ | r
      · simp [checkVariantDb, getDbName, hh, hs, Call.isExternalProcess]
      · by_cases hr : r = ""
        · simp [checkVariantDb, getDbName, hh, hs, hr, Call.isExternalProcess]
        · by_cases hm : r ∈ env.mongoDbNames <;>
            simp [checkVariantDb, getDbName, hh, hs, hr, hm, Call.isExternalProcess]
    · by_cases hm : s ∈ env.mongoDbNames <;>
        simp [checkVariantDb, getDbName, hs, hm, Call.isExternalProcess]

theorem not_mem_of_filter_isProcess_nil {l : List Call}
    (h : l.filter Call.isExternalProcess = []) (x : Call)
    (hx : Call.isExternalProcess x = true) : x ∉ l := by
  intro hmem
  have hmf : x ∈ l.filter Call.isExternalProcess := List.mem_filter.mpr ⟨hmem, hx⟩
  rw [h] at hmf
  exact (List.not_mem_nil x) hmf

/-! ## C1: precondition failure comes before any external process, but the
checkpoint is not left unchanged -/

/-- C1 (amended): when the database identity cannot be resolved, `ingest`
fails with the precondition `ValueError` before any external process is
invoked; however the checkpoint is not left untouched — the failing run has
already recorded the ingestion date (and nothing else). -/
theorem claim_C1 (env : Env) (c0 : Cfg) (now : String)
    (agg inst vv vcv : Option String) (tasks : List String)
    (wv wp : Val)
    (hvcf : c0.query ["brokering", "vcf_files"] = some wv)
    (hproj : c0.query ["brokering", "ena", "PROJECT"] = some wp)
    (hres : env.resolveDbName = none) :
    (ingest env c0 now agg inst vv vcv none tasks).err
        = some (.valueError "No database found") ∧
    ((ingest env c0 now agg inst vv vcv none tasks).calls.filter
        Call.isExternalProcess) = [] ∧
    (ingest env c0 now agg inst vv vcv none tasks).cfg
        = c0.set ["ingestion", "ingestion_date"] (.vstr now) := by
  have h1 : checkBrokeringDone
      (c0.set ["ingestion", "ingestion_date"] (.vstr now)) = none := by
    unfold checkBrokeringDone
    rw [Cfg.query_set_of_ne _ _ _ _ (by decide),
        Cfg.query_set_of_ne _ _ _ _ (by decide), hvcf, hproj]
    simp
  have h2 : checkVariantDb env
      (c0.set ["ingestion", "ingestion_date"] (.vstr now)) none
      = ⟨c0.set ["ingestion", "ingestion_date"] (.vstr now),
          [.evaproResolveDbName], some (.valueError "No database found")⟩ := by
    simp [checkVariantDb, getDbName, hres]
  simp [ingest, h1, h2, Call.isExternalProcess]

/-- C1 witness: the amended statement at a concrete input. -/
theorem claim_C1_witness :
    (ingest envNoDb cBrok "2021-01-01" none none none none none
        ["accession"]).err = some (.valueError "No database found") ∧
    ((ingest envNoDb cBrok "2021-01-01" none none none none none
        ["accession"]).calls.filter Call.isExternalProcess) = [] ∧
    (ingest envNoDb cBrok "2021-01-01" none none none none none
        ["accession"]).cfg
      = cBrok.set ["ingestion", "ingestion_date"] (.vstr "2021-01-01") :=
  claim_C1 envNoDb cBrok "2021-01-01" none none none none ["accession"]
    (.vdict [("a.vcf.gz", "a.csi")]) (.vstr "PRJEB1") rfl rfl rfl

/-- C1 counterexample to the claim as stated: at a concrete input the run
fails with the precondition error, yet the checkpoint document has been
changed by the failing run (the ingestion date was recorded). -/
theorem claim_C1_counterexample :
    (ingest envNoDb cBrok "2021-01-01" none none none none none
        ["accession"]).err = some (.valueError "No database found") ∧
    ¬ (ingest envNoDb cBrok "2021-01-01" none none none none none
        ["accession"]).cfg = cBrok := by decide

/-! ## C2: only the metadata-load stage records its outcome -/

/-- C2 (amended): the metadata-load stage records
`ingestion.ena_load = success` exactly when the ENA load process exits
zero, and records `failure` and re-raises on nonzero exit; the accession
and variant-load executors re-raise the `CalledProcessError` on nonzero
exit — aborting the remaining stage sequence — but record no stage
outcome at all in the checkpoint (their `cfg` is returned unchanged). -/
theorem claim_C2 (env : Env) (c : Cfg) :
    ((loadFromEna env c).cfg.query ["ingestion", "ena_load"]
        = some (.vstr "success") ↔ env.enaLoadExit = 0) ∧
    (¬ env.enaLoadExit = 0 →
      (loadFromEna env c).cfg.query ["ingestion", "ena_load"]
          = some (.vstr "failure") ∧
      (loadFromEna env c).err = some (.calledProcessError env.enaLoadExit)) ∧
    (runAccessionWorkflow env c).cfg = c ∧
    (runVariantLoadWorkflow env c).cfg = c ∧
    (¬ env.accessionExit = 0 →
      (runAccessionWorkflow env c).err
          = some (.calledProcessError env.accessionExit)) ∧
    (∀ t sn, env.projectTitles = [t] →
      c.query ["submission", "scientific_name"] = some (.vstr sn) →
      ¬ env.variantLoadExit = 0 →
      (runVariantLoadWorkflow env c).err
          = some (.calledProcessError env.variantLoadExit)) ∧
    (∀ c0 now agg inst vv vcv dbn tasks,
      "metadata_load" ∈ tasks → ¬ env.enaLoadExit = 0 →
      Call.accessionPipeline ∉ (ingest env c0 now agg inst vv vcv dbn tasks).calls ∧
      Call.variantLoadPipeline ∉ (ingest env c0 now agg inst vv vcv dbn tasks).calls) := by
  refine ⟨?_, ?_, ?_, ?_, ?_, ?_, ?_⟩
  · by_cases h : env.enaLoadExit = 0
    · simp [loadFromEna, h, Cfg.query_set_self]
    · simp [loadFromEna, h, Cfg.query_set_self]
  · intro h
    simp [loadFromEna, h, Cfg.query_set_self]
  · simp [runAccessionWorkflow]
  · rcases ht : env.projectTitles with _ | ⟨t, rest⟩
    · simp [runVariantLoadWorkflow, getStudyName, ht]
    · rcases rest with _ | ⟨t2, rest2⟩
      · rcases hgv : getVepSpecies c with e | s <;>
          simp [runVariantLoadWorkflow, getStudyName, ht, hgv]
      · simp [runVariantLoadWorkflow, getStudyName, ht]
  · intro h
    simp [runAccessionWorkflow, h]
  · intro t sn htit hsci hvl
    simp [runVariantLoadWorkflow, getStudyName, htit, getVepSpecies, hsci, hvl]
  · intro c0 now agg inst vv vcv dbn tasks hmeta hena
    have htne : ¬ tasks = [] := List.ne_nil_of_mem hmeta
    simp only [ingest]
    rcases hcb : checkBrokeringDone
        (c0.set ["ingestion", "ingestion_date"] (.vstr now)) with _ | e
    · rcases hcv : checkVariantDb env
          (c0.set ["ingestion", "ingestion_date"] (.vstr now)) dbn
        with ⟨cc, callsv, errv⟩
      have hfil := checkVariantDb_no_process env
        (c0.set ["ingestion", "ingestion_date"] (.vstr now)) dbn
      rw [hcv] at hfil
      simp only at hfil
      have h1 : Call.accessionPipeline ∉ callsv :=
        not_mem_of_filter_isProcess_nil hfil _ rfl
      have h2 : Call.variantLoadPipeline ∉ callsv :=
        not_mem_of_filter_isProcess_nil hfil _ rfl
      rcases errv with _ | e2
      · have hl : loadFromEna env cc
            = ⟨cc.set ["ingestion", "ena_load"] (.vstr "failure"),
                [.enaLoadProcess], some (.calledProcessError env.enaLoadExit)⟩ := by
          simp [loadFromEna, hena]
        simp [htne, hmeta, hl, List.mem_append, h1, h2]
      · simp [h1, h2]
    · simp

/-- C2 witness: the amended statement at concrete inputs — the failing ENA
load records `failure`, the failing variant-load pipeline re-raises, and
the pipelines after a failed ENA load are not invoked. -/
theorem claim_C2_witness :
    ((loadFromEna envEnaFail cBrok).cfg.query ["ingestion", "ena_load"]
        = some (Val.vstr "failure") ∧
      (loadFromEna envEnaFail cBrok).err = some (.calledProcessError 1)) ∧
    (runVariantLoadWorkflow envVlFail cSci).err
        = some (.calledProcessError 1) ∧
    (Call.accessionPipeline ∉
        (ingest envEnaFail cBrok "d" none none none none none
          ["metadata_load", "accession", "variant_load"]).calls ∧
      Call.variantLoadPipeline ∉
        (ingest envEnaFail cBrok "d" none none none none none
          ["metadata_load", "accession", "variant_load"]).calls) := by
  refine ⟨?_, ?_, ?_⟩
  · exact (claim_C2 envEnaFail cBrok).2.1 (by decide)
  · exact (claim_C2 envVlFail cSci).2.2.2.2.2.1 "Study" "Homo sapiens"
      rfl rfl (by decide)
  · exact (claim_C2 envEnaFail cBrok).2.2.2.2.2.2 cBrok "d" none none none
      none none ["metadata_load", "accession", "variant_load"] (by simp)
      (by decide)

/-- C2 counterexample to the claim as stated: the accessioning process
exits with code 1, the error is re-raised, yet no `failure` outcome is
recorded anywhere in the checkpoint. -/
theorem claim_C2_counterexample :
    (ingest envAccFail cBrok "d1" (some "NONE") (some "1") none none none
        ["accession"]).err = some (.calledProcessError 1) ∧
    ((ingest envAccFail cBrok "d1" (some "NONE") (some "1") none none none
        ["accession"]).cfg.all (fun kv => ¬ kv.2 = Val.vstr "failure")) = true := by
  decide

/-! ## C3: a metadata_load-only run still requires a database identity -/

/-- C3 (amended): a `metadata_load`-only run with the brokering facts
present succeeds and records `ena_load = success`, touching no other
stage, provided additionally the database identity resolves and exists —
`check_variant_db` runs on every `ingest` call regardless of the task
set, so the brokering facts are not its only prerequisites. -/
theorem claim_C3 (env : Env) (c0 : Cfg) (now : String)
    (agg inst vv vcv : Option String) (d : String) (wv wp : Val)
    (hvcf : c0.query ["brokering", "vcf_files"] = some wv)
    (hproj : c0.query ["brokering", "ena", "PROJECT"] = some wp)
    (hres : env.resolveDbName = some d) (hd : ¬ d = "")
    (hmem : d ∈ env.mongoDbNames) (hena : env.enaLoadExit = 0) :
    (ingest env c0 now agg inst vv vcv none ["metadata_load"]).err = none ∧
    (ingest env c0 now agg inst vv vcv none ["metadata_load"]).cfg.query
        ["ingestion", "ena_load"] = some (.vstr "success") ∧
    (ingest env c0 now agg inst vv vcv none ["metadata_load"]).calls
        = [.evaproResolveDbName, .mongoListDbNames, .enaLoadProcess] := by
  have h1 : checkBrokeringDone
      (c0.set ["ingestion", "ingestion_date"] (.vstr now)) = none := by
    unfold checkBrokeringDone
    rw [Cfg.query_set_of_ne _ _ _ _ (by decide),
        Cfg.query_set_of_ne _ _ _ _ (by decide), hvcf, hproj]
    simp
  have h2 : checkVariantDb env
      (c0.set ["ingestion", "ingestion_date"] (.vstr now)) none
      = ⟨((c0.set ["ingestion", "ingestion_date"] (.vstr now)).set
            ["ingestion", "database", "db_name"] (.vstr d)).set
            ["ingestion", "database", "exists"] (.vbool true),
          [.evaproResolveDbName, .mongoListDbNames], none⟩ := by
    simp [checkVariantDb, getDbName, hres, hd, hmem]
  simp [ingest, h1, h2, loadFromEna, hena, Cfg.query_set_self]

/-- C3 witness: the amended statement at a concrete input. -/
theorem claim_C3_witness :
    (ingest envGood cBrok "d" none none none none none
        ["metadata_load"]).err = none ∧
    (ingest envGood cBrok "d" none none none none none
        ["metadata_load"]).cfg.query ["ingestion", "ena_load"]
      = some (.vstr "success") ∧
    (ingest envGood cBrok "d" none none none none none
        ["metadata_load"]).calls
      = [.evaproResolveDbName, .mongoListDbNames, .enaLoadProcess] :=
  claim_C3 envGood cBrok "d" none none none none "eva_db"
    (.vdict [("a.vcf.gz", "a.csi")]) (.vstr "PRJEB1") rfl rfl rfl
    (by decide) (by decide) rfl

/-- C3 counterexample to the claim as stated: with the brokering facts
present but no resolvable database identity, a `metadata_load`-only run
does not succeed — it fails before the ENA load process is invoked. -/
theorem claim_C3_counterexample :
    (ingest envNoDb cBrok "d" none none none none none
        ["metadata_load"]).err = some (.valueError "No database found") ∧
    Call.enaLoadProcess ∉
      (ingest envNoDb cBrok "d" none none none none none
        ["metadata_load"]).calls := by decide

/-! ## C4: a recorded database identity is re-resolved, not reused -/

/-- `check_variant_db` without an explicit name always performs the EVAPRO
lookup. -/
theorem checkVariantDb_resolves (env : Env) (c : Cfg) :
    Call.evaproResolveDbName ∈ (checkVariantDb env c none).calls := by
  rcases hh : env.resolveDbName with _ | r
  · simp [checkVariantDb, getDbName, hh]
  · by_cases hr : r = ""
    · simp [checkVariantDb, getDbName, hh, hr]
    · by_cases hm : r ∈ env.mongoDbNames <;>
        simp [checkVariantDb, getDbName, hh, hr, hm]

/-- C4 (amended): every `ingest` run without an explicit `db_name`
override queries the metadata store again (the EVAPRO lookup is in the
trace, whatever the checkpoint already records) and the freshly resolved
name overwrites the recorded one. -/
theorem claim_C4 (env : Env) (c c0 : Cfg) (now : String)
    (agg inst vv vcv : Option String) (tasks : List String) (d : String)
    (wv wp : Val)
    (hvcf : c0.query ["brokering", "vcf_files"] = some wv)
    (hproj : c0.query ["brokering", "ena", "PROJECT"] = some wp) :
    Call.evaproResolveDbName ∈ (ingest env c0 now agg inst vv vcv none tasks).calls ∧
    (env.resolveDbName = some d → ¬ d = "" →
      (checkVariantDb env c none).cfg.query ["ingestion", "database", "db_name"]
        = some (.vstr d)) := by
  constructor
  · have h1 : checkBrokeringDone
        (c0.set ["ingestion", "ingestion_date"] (.vstr now)) = none := by
      unfold checkBrokeringDone
      rw [Cfg.query_set_of_ne _ _ _ _ (by decide),
          Cfg.query_set_of_ne _ _ _ _ (by decide), hvcf, hproj]
      simp
    simp only [ingest, h1]
    rcases hcv : checkVariantDb env
        (c0.set ["ingestion", "ingestion_date"] (.vstr now)) none
      with ⟨cc, callsv, errv⟩
    have hmemv := checkVariantDb_resolves env
      (c0.set ["ingestion", "ingestion_date"] (.vstr now))
    rw [hcv] at hmemv
    simp only at hmemv
    rcases errv with _ | e2
    · repeat' split
      all_goals simp_all [List.mem_append]
    · exact hmemv
  · intro hres hd
    by_cases hm : d ∈ env.mongoDbNames <;>
      simp [checkVariantDb, getDbName, hres, hd, hm,
        Cfg.query_set_of_ne _ _ _ _
          (by decide : ¬ (["ingestion", "database", "exists"] : CfgPath)
            = ["ingestion", "database", "db_name"]),
        Cfg.query_set_self]

/-- C4 witness: the amended statement at a concrete input whose checkpoint
already records a database identity. -/
theorem claim_C4_witness :
    Call.evaproResolveDbName ∈
      (ingest envOther cRec "d3" none none none none none
        ["metadata_load"]).calls ∧
    (checkVariantDb envOther cRec none).cfg.query
        ["ingestion", "database", "db_name"] = some (.vstr "other_db") := by
  have h := claim_C4 envOther cRec cRec "d3" none none none none
    ["metadata_load"] "other_db" (.vdict [("a.vcf.gz", "a.csi")])
    (.vstr "PRJEB1") rfl rfl
  exact ⟨h.1, h.2 rfl (by decide)⟩

/-- C4 counterexample to the claim as stated: the checkpoint records
`recorded_db`, yet a subsequent run without override queries EVAPRO and
stores the freshly resolved `other_db` instead of reusing the recorded
value. -/
theorem claim_C4_counterexample :
    cRec.query ["ingestion", "database", "db_name"]
        = some (.vstr "recorded_db") ∧
    (ingest envOther cRec "d3" none none none none none
        ["metadata_load"]).cfg.query ["ingestion", "database", "db_name"]
      = some (.vstr "other_db") ∧
    Call.evaproResolveDbName ∈
      (ingest envOther cRec "d3" none none none none none
        ["metadata_load"]).calls := by decide

/-! ## C5: accession failure records nothing, variant_load is not gated -/

/-- C5 (amended): when the accessioning process exits nonzero the error is
re-raised but no stage outcome is recorded (the checkpoint holds exactly
the pre-workflow facts); and a subsequent `variant_load`-only run is not
gated on a recorded accession success — it invokes the variant-load
pipeline and succeeds whenever the brokering and database checks pass and
the variant-load execution context can be built (a single project title
row and a recorded scientific name). -/
theorem claim_C5 (env1 env2 : Env) (c0 c0' : Cfg) (now now' : String)
    (a a' : String) (inst vv vcv inst' vv' vcv' : Option String)
    (d1 d2 t sn : String) (wv wp wv' wp' : Val)
    (hvcf : c0.query ["brokering", "vcf_files"] = some wv)
    (hproj : c0.query ["brokering", "ena", "PROJECT"] = some wp)
    (hres1 : env1.resolveDbName = some d1) (hd1 : ¬ d1 = "")
    (hmem1 : d1 ∈ env1.mongoDbNames)
    (hacc : ¬ env1.accessionExit = 0)
    (hvcf' : c0'.query ["brokering", "vcf_files"] = some wv')
    (hproj' : c0'.query ["brokering", "ena", "PROJECT"] = some wp')
    (hres2 : env2.resolveDbName = some d2) (hd2 : ¬ d2 = "")
    (hmem2 : d2 ∈ env2.mongoDbNames)
    (hsci : c0'.query ["submission", "scientific_name"] = some (.vstr sn))
    (htit : env2.projectTitles = [t]) (hvl : env2.variantLoadExit = 0) :
    (ingest env1 c0 now (some a) inst vv vcv none ["accession"]).err
        = some (.calledProcessError env1.accessionExit) ∧
    (ingest env1 c0 now (some a) inst vv vcv none ["accession"]).cfg
        = ((((c0.set ["ingestion", "ingestion_date"] (.vstr now)).set
              ["ingestion", "database", "db_name"] (.vstr d1)).set
              ["ingestion", "database", "exists"] (.vbool true)).set
              ["ingestion", "aggregation"] (.vstr (strToLower a))).set
              ["ingestion", "accession", "instance_id"] (optVal inst) ∧
    Call.variantLoadPipeline ∈
      (ingest env2 c0' now' (some a') inst' vv' vcv' none
        ["variant_load"]).calls ∧
    (ingest env2 c0' now' (some a') inst' vv' vcv' none
        ["variant_load"]).err = none := by
  have h1 : checkBrokeringDone
      (c0.set ["ingestion", "ingestion_date"] (.vstr now)) = none := by
    unfold checkBrokeringDone
    rw [Cfg.query_set_of_ne _ _ _ _ (by decide),
        Cfg.query_set_of_ne _ _ _ _ (by decide), hvcf, hproj]
    simp
  have h2 : checkVariantDb env1
      (c0.set ["ingestion", "ingestion_date"] (.vstr now)) none
      = ⟨((c0.set ["ingestion", "ingestion_date"] (.vstr now)).set
            ["ingestion", "database", "db_name"] (.vstr d1)).set
            ["ingestion", "database", "exists"] (.vbool true),
          [.evaproResolveDbName, .mongoListDbNames], none⟩ := by
    simp [checkVariantDb, getDbName, hres1, hd1, hmem1]
  have hrun : ∀ cX, runAccessionWorkflow env1 cX
      = ⟨cX, [.accessionPipeline],
          some (.calledProcessError env1.accessionExit)⟩ := by
    intro cX
    simp [runAccessionWorkflow, hacc]
  have h1' : checkBrokeringDone
      (c0'.set ["ingestion", "ingestion_date"] (.vstr now')) = none := by
    unfold checkBrokeringDone
    rw [Cfg.query_set_of_ne _ _ _ _ (by decide),
        Cfg.query_set_of_ne _ _ _ _ (by decide), hvcf', hproj']
    simp
  have h2' : checkVariantDb env2
      (c0'.set ["ingestion", "ingestion_date"] (.vstr now')) none
      = ⟨((c0'.set ["ingestion", "ingestion_date"] (.vstr now')).set
            ["ingestion", "database", "db_name"] (.vstr d2)).set
            ["ingestion", "database", "exists"] (.vbool true),
          [.evaproResolveDbName, .mongoListDbNames], none⟩ := by
    simp [checkVariantDb, getDbName, hres2, hd2, hmem2]
  have hrun' : ∀ cX sX,
      Cfg.query cX ["submission", "scientific_name"] = some (.vstr sX) →
      runVariantLoadWorkflow env2 cX
        = ⟨cX, [.evaproStudyNameQuery, .variantLoadPipeline], none⟩ := by
    intro cX sX hq
    simp [runVariantLoadWorkflow, getStudyName, htit, hvl, getVepSpecies, hq]
  have hq4 : Cfg.query
      ((((((c0'.set ["ingestion", "ingestion_date"] (.vstr now')).set
          ["ingestion", "database", "db_name"] (.vstr d2)).set
          ["ingestion", "database", "exists"] (.vbool true)).set
          ["ingestion", "aggregation"] (.vstr (strToLower a'))).set
          ["ingestion", "variant_load", "vep", "version"] (optVal vv')).set
          ["ingestion", "variant_load", "vep", "cache_version"] (optVal vcv'))
      ["submission", "scientific_name"] = some (.vstr sn) := by
    rw [Cfg.query_set_of_ne _ _ _ _ (by decide),
        Cfg.query_set_of_ne _ _ _ _ (by decide),
        Cfg.query_set_of_ne _ _ _ _ (by decide),
        Cfg.query_set_of_ne _ _ _ _ (by decide),
        Cfg.query_set_of_ne _ _ _ _ (by decide),
        Cfg.query_set_of_ne _ _ _ _ (by decide), hsci]
  have hrunc4 := hrun' _ sn hq4
  refine ⟨?_, ?_, ?_, ?_⟩
  · simp [ingest, h1, h2, hrun]
  · simp [ingest, h1, h2, hrun]
  · simp [ingest, h1', h2', hrunc4]
  · simp [ingest, h1', h2', hrunc4]

/-- C5 witness: the amended statement at concrete inputs. -/
theorem claim_C5_witness :
    (ingest envAccFail cBrok "d1" (some "NONE") (some "1") none none none
        ["accession"]).err = some (.calledProcessError 1) ∧
    (ingest envAccFail cBrok "d1" (some "NONE") (some "1") none none none
        ["accession"]).cfg
      = ((((cBrok.set ["ingestion", "ingestion_date"] (.vstr "d1")).set
            ["ingestion", "database", "db_name"] (.vstr "eva_db")).set
            ["ingestion", "database", "exists"] (.vbool true)).set
            ["ingestion", "aggregation"] (.vstr (strToLower "NONE"))).set
            ["ingestion", "accession", "instance_id"] (optVal (some "1")) ∧
    Call.variantLoadPipeline ∈
      (ingest envGood cSci "d2" (some "NONE") none (some "104") (some "104")
        none ["variant_load"]).calls ∧
    (ingest envGood cSci "d2" (some "NONE") none (some "104") (some "104")
        none ["variant_load"]).err = none :=
  claim_C5 envAccFail envGood cBrok cSci "d1" "d2" "NONE" "NONE"
    (some "1") none none none (some "104") (some "104")
    "eva_db" "eva_db" "Study" "Homo sapiens"
    (.vdict [("a.vcf.gz", "a.csi")]) (.vstr "PRJEB1")
    (.vdict [("a.vcf.gz", "a.csi")]) (.vstr "PRJEB1")
    rfl rfl rfl (by decide) (by decide) (by decide)
    rfl rfl rfl (by decide) (by decide) rfl rfl rfl

/-- C5 counterexample to the claim as stated: after the accessioning
process exits with code 1, no `failure` outcome is recorded anywhere in
the checkpoint, and a variant_load request on that very checkpoint happily
invokes the variant-load pipeline and succeeds. -/
theorem claim_C5_counterexample :
    (ingest envAccFail cSci "d1" (some "NONE") (some "1") none none none
        ["accession"]).err = some (.calledProcessError 1) ∧
    ((ingest envAccFail cSci "d1" (some "NONE") (some "1") none none none
        ["accession"]).cfg.all (fun kv => ¬ kv.2 = Val.vstr "failure")) = true ∧
    Call.variantLoadPipeline ∈
      (ingest envGood
        (ingest envAccFail cSci "d1" (some "NONE") (some "1") none none none
          ["accession"]).cfg
        "d2" (some "NONE") none (some "104") (some "104") none
        ["variant_load"]).calls ∧
    (ingest envGood
        (ingest envAccFail cSci "d1" (some "NONE") (some "1") none none none
          ["accession"]).cfg
        "d2" (some "NONE") none (some "104") (some "104") none
        ["variant_load"]).err = none := by decide

/-! ## C6: directory layout creation is idempotent -/

theorem makedirs_true_ok (fs : Fs) (p : String) :
    makedirs fs p true = .ok (if p ∈ fs then fs else p :: fs) := by
  unfold makedirs
  by_cases h : p ∈ fs <;> simp [h]

theorem ensureDirsList_ok (root : String) (ds : List String) :
    ∀ fs : Fs, ∃ fs', ensureDirsList fs root ds = .ok fs' ∧
      (∀ x ∈ fs, x ∈ fs') ∧ (∀ d ∈ ds, (root ++ "/" ++ d) ∈ fs') := by
  induction ds with
  | nil =>
    intro fs
    exact ⟨fs, rfl, fun x hx => hx, by simp⟩
  | cons d ds ih =>
    intro fs
    have hm := makedirs_true_ok fs (root ++ "/" ++ d)
    rcases ih (if (root ++ "/" ++ d) ∈ fs then fs else (root ++ "/" ++ d) :: fs)
      with ⟨fs', h1, h2, h3⟩
    refine ⟨fs', ?_, ?_, ?_⟩
    · simp [ensureDirsList, hm, h1]
    · intro x hx
      apply h2
      by_cases hp : (root ++ "/" ++ d) ∈ fs <;> simp [hp, hx]
    · intro e he
      rcases List.mem_cons.mp he with rfl | he'
      · apply h2
        by_cases hp : (root ++ "/" ++ e) ∈ fs <;> simp [hp]
      · exact h3 e he'

theorem ensureDirsList_stable (root : String) (ds : List String) :
    ∀ fs : Fs, (∀ d ∈ ds, (root ++ "/" ++ d) ∈ fs) →
      ensureDirsList fs root ds = .ok fs := by
  induction ds with
  | nil => intro fs _; rfl
  | cons d ds ih =>
    intro fs h
    have hp : (root ++ "/" ++ d) ∈ fs := h d (by simp)
    have hm : makedirs fs (root ++ "/" ++ d) true = .ok fs := by
      simp [makedirs, hp]
    rw [ensureDirsList, hm]
    exact ih fs (fun e he => h e (by simp [he]))

theorem ensureLayout_idem (fs : Fs) (root : String)
    (layout : List (String × String)) :
    ∃ fs', ensureLayout fs root layout = .ok fs' ∧
      ensureLayout fs' root layout = .ok fs' := by
  have hm := makedirs_true_ok fs root
  have hroot0 : root ∈ (if root ∈ fs then fs else root :: fs) := by
    by_cases h : root ∈ fs <;> simp [h]
  rcases ensureDirsList_ok root (layout.map Prod.snd)
      (if root ∈ fs then fs else root :: fs) with ⟨fs', h1, h2, h3⟩
  refine ⟨fs', ?_, ?_⟩
  · rw [ensureLayout, hm]
    exact h1
  · have hroot' : root ∈ fs' := h2 root hroot0
    have hm' : makedirs fs' root true = .ok fs' := by simp [makedirs, hroot']
    rw [ensureLayout, hm']
    exact ensureDirsList_stable root (layout.map Prod.snd) fs' h3

/-- C6: establishing either directory layout twice yields, on the second
call, exactly the directory set produced by the first call and raises no
error — directory creation with `exist_ok=True` is idempotent. -/
theorem claim_C6 (fs : Fs) (root : String) :
    (∃ fs1, setupEloadDirs fs root = .ok fs1 ∧
      setupEloadDirs fs1 root = .ok fs1) ∧
    (∃ fs2, setupProjectDirTree fs root = .ok fs2 ∧
      setupProjectDirTree fs2 root = .ok fs2) :=
  ⟨ensureLayout_idem fs root directoryStructure,
   ensureLayout_idem fs root projectDirs⟩

/-! ## C7: database existence is exact, case-sensitive membership -/

/-- C7: with an explicitly supplied nonempty name, the database check
succeeds exactly when the name is a member (by exact string equality, so
case-sensitive, no normalization) of the variant warehouse catalog; the
recorded `exists` fact is precisely that membership, and a non-member name
aborts the run with the `ValueError`. -/
theorem claim_C7 (env : Env) (c : Cfg) (s : String) (hs : ¬ s = "") :
    ((checkVariantDb env c (some s)).err = none ↔ s ∈ env.mongoDbNames) ∧
    ((checkVariantDb env c (some s)).cfg.query
        ["ingestion", "database", "exists"]
      = some (.vbool (decide (s ∈ env.mongoDbNames)))) ∧
    (s ∉ env.mongoDbNames →
      (checkVariantDb env c (some s)).err
        = some (.valueError ("No database named " ++ s ++ " found."))) := by
  by_cases hm : s ∈ env.mongoDbNames <;>
    simp [checkVariantDb, hs, hm, Cfg.query_set_self]

/-- C7 witness: a name differing from the catalog entry only in case is
reported as nonexistent and the check aborts. -/
theorem claim_C7_witness :
    ((checkVariantDb envCat [] (some "EVA_DB")).err = none
        ↔ "EVA_DB" ∈ envCat.mongoDbNames) ∧
    ((checkVariantDb envCat [] (some "EVA_DB")).cfg.query
        ["ingestion", "database", "exists"]
      = some (.vbool (decide ("EVA_DB" ∈ envCat.mongoDbNames)))) ∧
    (checkVariantDb envCat [] (some "EVA_DB")).err
      = some (.valueError ("No database named " ++ "EVA_DB" ++ " found.")) := by
  have h := claim_C7 envCat [] "EVA_DB" (by decide)
  exact ⟨h.1, h.2.1, h.2.2 (by decide)⟩

/-! ## C8: bounded retries for the curie check, single attempts elsewhere -/

/-- C8: the curie-existence check is decorated with tries = 3, an initial
delay of 2 and jitter between 1 and 3; it makes at most 3 attempts, and
when all 3 attempts raise, the last exception propagates; the dbxref
store lookup is a plain single attempt whose exception surfaces
immediately. -/
theorem claim_C8 (f : Nat → Except PyError (List Bool))
    (g : Nat → Except PyError (Option Nat)) (e0 e1 e2 : PyError)
    (h0 : f 0 = .error e0) (h1 : f 1 = .error e1) (h2 : f 2 = .error e2) :
    curieRetryPolicy.tries = 3 ∧
    curieRetryPolicy.delay = 2 ∧
    curieRetryPolicy.jitterLo = 1 ∧
    curieRetryPolicy.jitterHi = 3 ∧
    (∀ f' : Nat → Except PyError (List Bool),
      attemptsUsed curieRetryPolicy.tries f' 0 ≤ 3) ∧
    curieExist f = .error e2 ∧
    attemptsUsed 1 g 0 = 1 ∧
    getDbxrefId g = g 0 := by
  refine ⟨rfl, rfl, rfl, rfl, ?_, ?_, rfl, rfl⟩
  · intro f'
    show attemptsUsed 3 f' 0 ≤ 3
    rcases hf0 : f' 0 with e | a
    · rcases hf1 : f' 1 with e' | a' <;>
        simp [attemptsUsed, hf0, hf1]
    · simp [attemptsUsed, hf0]
  · simp [curieExist, curieRetryPolicy, retryCall, h0, h1, h2, Except.map]

/-- C8 witness: the statement at a concrete always-failing attempt
function and a concrete single-attempt store lookup. -/
theorem claim_C8_witness :
    curieExist allFail = .error (.valueError "network unreachable") ∧
    attemptsUsed 1 gOne 0 = 1 ∧
    getDbxrefId gOne = gOne 0 :=
  ⟨(claim_C8 allFail gOne _ _ _ rfl rfl rfl).2.2.2.2.2.1,
   (claim_C8 allFail gOne _ _ _ rfl rfl rfl).2.2.2.2.2.2.1,
   (claim_C8 allFail gOne _ _ _ rfl rfl rfl).2.2.2.2.2.2.2⟩

/-! ## C9: conflicting candidates — warn-and-pick only for spreadsheets -/

/-- C9 (amended): with more than one metadata spreadsheet the program only
logs a warning and uses the most recent one; with more than one candidate
reference assembly it logs an error and does not fail, but records no
assembly at all in the submission config (it does not pick one); the
taxonomy id is recorded regardless. -/
theorem claim_C9 (menv : MetadataEnv) (c : Cfg) (box : FtpBox)
    (hgca : 1 < (referenceGcaSet menv).length)
    (hbox : ¬ box.metadataFiles.length = 1) :
    (detectMetadataAttributes menv c).1.query
        ["submission", "assembly_accession"]
      = c.query ["submission", "assembly_accession"] ∧
    (detectMetadataAttributes menv c).2
      = [LogEvent.logError
          ("Multiple assemblies per project not currently supported: "
            ++ String.intercalate ", " (referenceGcaSet menv))] ∧
    (detectMetadataAttributes menv c).1.query ["submission", "taxonomy_id"]
      = some (match menv.taxId with | some n => .vnat n | none => .vnone) ∧
    (copyFromFtp box).1 = box.mostRecent ∧
    LogEvent.warning ("Found " ++ toString box.metadataFiles.length
        ++ " metadata file in the FTP. Will use the most recent one")
      ∈ (copyFromFtp box).2 := by
  refine ⟨?_, ?_, ?_, ?_, ?_⟩
  · simp [detectMetadataAttributes, addToSubmissionConfig, hgca,
      Cfg.query_set_of_ne _ _ _ _
        (by decide : ¬ (["submission", "taxonomy_id"] : CfgPath)
          = ["submission", "assembly_accession"])]
  · simp [detectMetadataAttributes, hgca]
  · simp [detectMetadataAttributes, addToSubmissionConfig, hgca,
      Cfg.query_set_self]
  · simp [copyFromFtp]
  · simp [copyFromFtp, hbox]

/-- C9 witness: the amended statement at a concrete two-assembly,
two-spreadsheet submission. -/
theorem claim_C9_witness :
    (detectMetadataAttributes menvTwo []).1.query
        ["submission", "assembly_accession"]
      = Cfg.query [] ["submission", "assembly_accession"] ∧
    (detectMetadataAttributes menvTwo []).2
      = [LogEvent.logError
          ("Multiple assemblies per project not currently supported: "
            ++ String.intercalate ", " (referenceGcaSet menvTwo))] ∧
    (detectMetadataAttributes menvTwo []).1.query ["submission", "taxonomy_id"]
      = some (match menvTwo.taxId with | some n => .vnat n | none => .vnone) ∧
    (copyFromFtp boxTwo).1 = boxTwo.mostRecent ∧
    LogEvent.warning ("Found " ++ toString boxTwo.metadataFiles.length
        ++ " metadata file in the FTP. Will use the most recent one")
      ∈ (copyFromFtp boxTwo).2 :=
  claim_C9 menvTwo [] boxTwo (by decide) (by decide)

/-- C9 counterexample to the claim as stated: with two candidate
assemblies the program records no assembly in the submission config — it
does not pick one of the candidates. -/
theorem claim_C9_counterexample :
    1 < (referenceGcaSet menvTwo).length ∧
    (detectMetadataAttributes menvTwo []).1.query
        ["submission", "assembly_accession"] = none := by decide

/-! ## C10: the undocumented aggregation precondition -/

/-- C10: whenever the requested tasks include `accession` or
`variant_load` and the aggregation argument is `None`, `ingest` fails with
the `AttributeError` raised at `aggregation.lower()` before either
pipeline process is invoked. -/
theorem claim_C10 (env : Env) (c0 : Cfg) (now : String)
    (inst vv vcv : Option String) (tasks : List String) (d : String)
    (wv wp : Val)
    (hvcf : c0.query ["brokering", "vcf_files"] = some wv)
    (hproj : c0.query ["brokering", "ena", "PROJECT"] = some wp)
    (hres : env.resolveDbName = some d) (hd : ¬ d = "")
    (hmem : d ∈ env.mongoDbNames)
    (htasks : "accession" ∈ tasks ∨ "variant_load" ∈ tasks)
    (hena : env.enaLoadExit = 0) :
    (ingest env c0 now none inst vv vcv none tasks).err
        = some (.attributeError "NoneType object has no attribute lower") ∧
    Call.accessionPipeline ∉
      (ingest env c0 now none inst vv vcv none tasks).calls ∧
    Call.variantLoadPipeline ∉
      (ingest env c0 now none inst vv vcv none tasks).calls := by
  have htne : ¬ tasks = [] := by
    rcases htasks with h | h <;> exact List.ne_nil_of_mem h
  have h1 : checkBrokeringDone
      (c0.set ["ingestion", "ingestion_date"] (.vstr now)) = none := by
    unfold checkBrokeringDone
    rw [Cfg.query_set_of_ne _ _ _ _ (by decide),
        Cfg.query_set_of_ne _ _ _ _ (by decide), hvcf, hproj]
    simp
  have h2 : checkVariantDb env
      (c0.set ["ingestion", "ingestion_date"] (.vstr now)) none
      = ⟨((c0.set ["ingestion", "ingestion_date"] (.vstr now)).set
            ["ingestion", "database", "db_name"] (.vstr d)).set
            ["ingestion", "database", "exists"] (.vbool true),
          [.evaproResolveDbName, .mongoListDbNames], none⟩ := by
    simp [checkVariantDb, getDbName, hres, hd, hmem]
  by_cases hml : "metadata_load" ∈ tasks <;>
    simp [ingest, h1, h2, htne, hml, loadFromEna, hena, htasks]

/-- C10 witness: the statement at a concrete input. -/
theorem claim_C10_witness :
    (ingest envGood cBrok "d4" none none none none none
        ["accession"]).err
      = some (.attributeError "NoneType object has no attribute lower") ∧
    Call.accessionPipeline ∉
      (ingest envGood cBrok "d4" none none none none none
        ["accession"]).calls ∧
    Call.variantLoadPipeline ∉
      (ingest envGood cBrok "d4" none none none none none
        ["accession"]).calls :=
  claim_C10 envGood cBrok "d4" none none none ["accession"] "eva_db"
    (.vdict [("a.vcf.gz", "a.csi")]) (.vstr "PRJEB1") rfl rfl rfl
    (by decide) (by decide) (by simp) rfl

end EvaSubmission
